import Mathlib

/-!
Shallow embedding of the RCON protocol client and session registry
(package rcon and the mcp connect tool), with theorems checking the
specification's claims about packet framing, the client state machine
and the session registry.

Conventions of the embedding:
* Go `int32` values are integers; arithmetic that overflows in Go is
  wrapped explicitly with `toInt32`.
* Byte strings (`[]byte`, `string` payloads) are `List ℕ` of byte values.
* Network effects are passed in explicitly: whether a dial, a write or a
  close succeeds is a `Bool` supplied by the environment, and the bytes
  available for reading are a `List ℕ` stream.
* Methods that mutate the Go receiver return the updated value
  alongside their `Except` result.
-/

/-- Go int32 wraparound: reduce an integer into `[-2^31, 2^31)`. -/
def toInt32 (n : ℤ) : ℤ := (n + 2147483648) % 4294967296 - 2147483648

/-- Unsigned 32-bit representation of a signed value, as used by the
little-endian encoder (`binary.Write` of an int32). -/
def u32ofInt (n : ℤ) : ℕ := (n % 4294967296).toNat

/-- Reinterpret an unsigned 32-bit value as a Go int32 (two's complement),
as `binary.Read` into an int32 does. -/
def int32ofNat (u : ℕ) : ℤ :=
  if u % 4294967296 < 2147483648 then (u % 4294967296 : ℕ)
  else (u % 4294967296 : ℕ) - 4294967296

/-- Little-endian 4-byte encoding of an unsigned 32-bit value. -/
def le32 (u : ℕ) : List ℕ := [u % 256, u / 256 % 256, u / 65536 % 256, u / 16777216 % 256]

/-- Little-endian value of a byte list (first byte least significant). -/
def leNat (bs : List ℕ) : ℕ := bs.foldr (fun b acc => b + 256 * acc) 0

/-- All error conditions surfaced by the client and the registry. -/
inductive RconError
  | alreadyConnected
  | connectionError
  | notConnected
  | alreadyAuthenticated
  | authenticationFailed
  | unexpectedResponse
  | notAuthenticated
  | responseMismatch
  | sendFailed
  | ioError
  | invalidPacketSize
  | closeError
  | sessionNotFound
  | duplicateSession
  deriving DecidableEq

/-- An RCON protocol packet: size, request id, type tag and body bytes.
The Go struct Packet. `readPacket` leaves `size` at its zero value. -/
structure Packet where
  size : ℤ
  id : ℤ
  type : ℤ
  body : List ℕ
  deriving DecidableEq

/-- PacketTypeAuth = 3: authentication request. -/
def PacketTypeAuth : ℤ := 3

/-- PacketTypeAuthResponse = 2: authentication response. -/
def PacketTypeAuthResponse : ℤ := 2

/-- PacketTypeCommand = 2: command execution request. -/
def PacketTypeCommand : ℤ := 2

/-- PacketTypeResponse = 0: command response. -/
def PacketTypeResponse : ℤ := 0

/-- maxPacketSize = 4096: maximum allowed packet size in bytes. -/
def maxPacketSize : ℤ := 4096

/-- Client.sendPacket, encoding part: size = body length + 10, then
size, id, type little-endian, the body bytes, and two zero terminators. -/
def encodePacket (p : Packet) : List ℕ :=
  le32 (u32ofInt ((p.body.length : ℤ) + 10)) ++ le32 (u32ofInt p.id) ++
    le32 (u32ofInt p.type) ++ p.body ++ [0, 0]

/-- Client.readPacket on a byte stream: read a 4-byte little-endian size,
reject sizes outside `[10, 4096]`, read that many further bytes, take the
first 4 as id, the next 4 as type, and all but the final 2 as the body.
A short stream is an I/O error (`io.ReadFull` fails). -/
def readPacket (stream : List ℕ) : Except RconError Packet :=
  if stream.length < 4 then .error .ioError
  else
    let size := int32ofNat (leNat (stream.take 4))
    if size < 10 ∨ size > maxPacketSize then .error .invalidPacketSize
    else
      let rest := stream.drop 4
      if rest.length < size.toNat then .error .ioError
      else
        let packetBuf := rest.take size.toNat
        let pid := int32ofNat (leNat (packetBuf.take 4))
        let pty := int32ofNat (leNat ((packetBuf.drop 4).take 4))
        let pbody := (packetBuf.drop 8).take (size.toNat - 10)
        .ok ⟨0, pid, pty, pbody⟩

lemma leNat_le32 (u : ℕ) : leNat (le32 u) = u % 4294967296 := by
  simp only [le32, leNat, List.foldr_cons, List.foldr_nil]
  omega

lemma int32_le_roundtrip (n : ℤ) (h1 : -2147483648 ≤ n) (h2 : n < 2147483648) :
    int32ofNat (leNat (le32 (u32ofInt n))) = n := by
  rw [leNat_le32]
  unfold int32ofNat u32ofInt
  split <;> omega

lemma le32_append_take (u : ℕ) (l : List ℕ) : (le32 u ++ l).take 4 = le32 u := by
  simp [le32]

lemma le32_append_drop (u : ℕ) (l : List ℕ) : (le32 u ++ l).drop 4 = l := by
  simp [le32]

lemma encodePacket_length (p : Packet) :
    (encodePacket p).length = p.body.length + 14 := by
  simp [encodePacket, le32]

lemma encodePacket_assoc (p : Packet) :
    encodePacket p =
      le32 (u32ofInt ((p.body.length : ℤ) + 10)) ++
        (le32 (u32ofInt p.id) ++ (le32 (u32ofInt p.type) ++ (p.body ++ [0, 0]))) := by
  simp [encodePacket, List.append_assoc]

lemma le32_length (u : ℕ) : (le32 u).length = 4 := rfl

/-- C5: Packet round-trip. For every Packet with id and type in int32 range,
body without null bytes and `body length + 10 ≤ 4096`, decoding the bytes
produced by the send algorithm recovers the same id, type and body
(byte-for-byte), including for an empty body. -/
theorem readPacket_encodePacket (p : Packet)
    (hid1 : -2147483648 ≤ p.id) (hid2 : p.id < 2147483648)
    (hty1 : -2147483648 ≤ p.type) (hty2 : p.type < 2147483648)
    (_hnull : ∀ b ∈ p.body, b ≠ 0) (hlen : p.body.length + 10 ≤ 4096) :
    readPacket (encodePacket p) = .ok ⟨0, p.id, p.type, p.body⟩ := by
  have hsz : int32ofNat (leNat ((encodePacket p).take 4)) = (p.body.length : ℤ) + 10 := by
    rw [encodePacket_assoc, List.take_left' (le32_length _)]
    exact int32_le_roundtrip _ (by omega) (by omega)
  have h1 : ¬ (encodePacket p).length < 4 := by
    rw [encodePacket_length]; omega
  have hdrop : (encodePacket p).drop 4 =
      le32 (u32ofInt p.id) ++ (le32 (u32ofInt p.type) ++ (p.body ++ [0, 0])) := by
    rw [encodePacket_assoc]; exact List.drop_left' (le32_length _)
  have hrestlen :
      (le32 (u32ofInt p.id) ++ (le32 (u32ofInt p.type) ++ (p.body ++ [0, 0]))).length =
        p.body.length + 10 := by
    simp [le32]
  simp only [readPacket]
  rw [if_neg h1, hsz]
  rw [if_neg (by unfold maxPacketSize; omega :
    ¬ ((p.body.length : ℤ) + 10 < 10 ∨ (p.body.length : ℤ) + 10 > maxPacketSize))]
  rw [hdrop]
  have htoNat : ((p.body.length : ℤ) + 10).toNat = p.body.length + 10 := by omega
  rw [htoNat, if_neg (by rw [hrestlen]; omega), ← hrestlen, List.take_length]
  rw [List.take_left' (le32_length _), List.drop_left' (le32_length _)]
  rw [List.take_left' (le32_length _)]
  have hdrop8 :
      (le32 (u32ofInt p.id) ++ (le32 (u32ofInt p.type) ++ (p.body ++ [0, 0]))).drop 8 =
        p.body ++ [0, 0] := by
    rw [show (8 : ℕ) = 4 + 4 from rfl, ← List.drop_drop,
      List.drop_left' (le32_length _), List.drop_left' (le32_length _)]
  rw [hdrop8]
  have hbody : (p.body ++ [0, 0]).take (p.body.length + 10 - 10) = p.body := by
    rw [show p.body.length + 10 - 10 = p.body.length from by omega]
    exact List.take_left _ _
  rw [hrestlen, hbody, int32_le_roundtrip _ hid1 hid2, int32_le_roundtrip _ hty1 hty2]

/-- Witness for C5 at a concrete packet (id 7, type 3 = Auth, body the two
bytes 104 105). -/
theorem readPacket_encodePacket_witness :
    readPacket (encodePacket ⟨0, 7, 3, [104, 105]⟩) = .ok ⟨0, 7, 3, [104, 105]⟩ :=
  readPacket_encodePacket ⟨0, 7, 3, [104, 105]⟩ (by decide) (by decide) (by decide)
    (by decide) (by decide) (by decide)

/-- C6: the receive algorithm fails with InvalidPacketSize exactly when the
little-endian int32 decoded from the first four bytes of the stream is
below 10 or above 4096. -/
theorem readPacket_size_bounds (s : List ℕ) (h : 4 ≤ s.length) :
    readPacket s = .error .invalidPacketSize ↔
      (int32ofNat (leNat (s.take 4)) < 10 ∨ int32ofNat (leNat (s.take 4)) > maxPacketSize) := by
  unfold readPacket
  rw [if_neg (by omega)]
  constructor
  · intro hres
    by_contra hc
    rw [if_neg hc] at hres
    simp only [] at hres
    split at hres <;> simp_all
  · intro hc
    rw [if_pos hc]

/-- Witness for C6: declared lengths 9 and 4097 are rejected with
InvalidPacketSize; declared lengths 10 and 4096 are not. -/
theorem readPacket_size_bounds_witness :
    readPacket [9, 0, 0, 0] = .error .invalidPacketSize ∧
    readPacket [1, 16, 0, 0] = .error .invalidPacketSize ∧
    readPacket [10, 0, 0, 0] ≠ .error .invalidPacketSize ∧
    readPacket [0, 16, 0, 0] ≠ .error .invalidPacketSize :=
  ⟨(readPacket_size_bounds [9, 0, 0, 0] (by decide)).mpr (by decide),
   (readPacket_size_bounds [1, 16, 0, 0] (by decide)).mpr (by decide),
   fun h => absurd ((readPacket_size_bounds [10, 0, 0, 0] (by decide)).mp h) (by decide),
   fun h => absurd ((readPacket_size_bounds [0, 16, 0, 0] (by decide)).mp h) (by decide)⟩

/-- The RCON client: transport handle (present or nil), request-id counter,
connection flag and authentication flag. The Go struct Client (the mutex
serializes calls and is not part of the sequential model). -/
structure Client where
  conn : Bool
  requestID : ℤ
  isConnected : Bool
  isAuthorized : Bool
  deriving DecidableEq

/-- NewClient: disconnected, request-id counter seeded at 1. -/
def NewClient : Client :=
  { conn := false, requestID := 1, isConnected := false, isAuthorized := false }

/-- Client.getNextRequestID: return the current counter and increment it
(int32 wraparound). -/
def Client.getNextRequestID (c : Client) : ℤ × Client :=
  (c.requestID, { c with requestID := toInt32 (c.requestID + 1) })

/-- Network environment for one request/response exchange: whether the
write succeeds, and the bytes available to read. -/
structure NetEnv where
  sendOk : Bool
  input : List ℕ

/-- Client.Connect: error if already connected; on dial failure the error
is wrapped and state is unchanged; on success the handle is stored and
the connected flag set. -/
def Client.Connect (c : Client) (dialOk : Bool) : Client × Except RconError Unit :=
  if c.isConnected then (c, .error .alreadyConnected)
  else if !dialOk then (c, .error .connectionError)
  else ({ c with conn := true, isConnected := true }, .ok ())

/-- Result of Client.Authenticate: updated client, outcome, and the
packets passed to sendPacket. -/
structure AuthResult where
  client : Client
  result : Except RconError Unit
  sent : List Packet

/-- Client.Authenticate: precondition checks, then one Auth packet with
the next request id, one response read, and the id checks (-1 sentinel
first, then request-id match). -/
def Client.Authenticate (c : Client) (password : List ℕ) (env : NetEnv) : AuthResult :=
  if !c.isConnected then ⟨c, .error .notConnected, []⟩
  else if c.isAuthorized then ⟨c, .error .alreadyAuthenticated, []⟩
  else
    let (reqID, c1) := c.getNextRequestID
    let authPacket : Packet := ⟨(password.length : ℤ) + 10, reqID, PacketTypeAuth, password⟩
    if !env.sendOk then ⟨c1, .error .sendFailed, [authPacket]⟩
    else
      match readPacket env.input with
      | .error e => ⟨c1, .error e, [authPacket]⟩
      | .ok response =>
        if response.id = -1 then ⟨c1, .error .authenticationFailed, [authPacket]⟩
        else if response.id ≠ authPacket.id then ⟨c1, .error .unexpectedResponse, [authPacket]⟩
        else ⟨{ c1 with isAuthorized := true }, .ok (), [authPacket]⟩

/-- Result of Client.Execute: updated client, outcome (response body on
success), and the packets passed to sendPacket. -/
structure ExecResult where
  client : Client
  result : Except RconError (List ℕ)
  sent : List Packet

/-- Client.Execute: precondition checks, then one Command packet with the
next request id, one response read, the id match check, and the response
body returned verbatim. -/
def Client.Execute (c : Client) (command : List ℕ) (env : NetEnv) : ExecResult :=
  if !c.isConnected then ⟨c, .error .notConnected, []⟩
  else if !c.isAuthorized then ⟨c, .error .notAuthenticated, []⟩
  else
    let (reqID, c1) := c.getNextRequestID
    let cmdPacket : Packet := ⟨(command.length : ℤ) + 10, reqID, PacketTypeCommand, command⟩
    if !env.sendOk then ⟨c1, .error .sendFailed, [cmdPacket]⟩
    else
      match readPacket env.input with
      | .error e => ⟨c1, .error e, [cmdPacket]⟩
      | .ok response =>
        if response.id ≠ cmdPacket.id then ⟨c1, .error .responseMismatch, [cmdPacket]⟩
        else ⟨c1, .ok response.body, [cmdPacket]⟩

/-- Client.Disconnect: no-op success when not connected; when connected,
a failing close returns the wrapped error with no state change, and a
successful close releases the handle and clears both flags. -/
def Client.Disconnect (c : Client) (closeOk : Bool) : Client × Except RconError Unit :=
  if !c.isConnected then (c, .ok ())
  else if !closeOk then (c, .error .closeError)
  else ({ c with conn := false, isConnected := false, isAuthorized := false }, .ok ())

/-- C1 counterexample: on a connected, authenticated client whose
underlying close fails, Disconnect returns CloseError and leaves the
connected flag, the authenticated flag and the transport handle intact —
the claim that every Disconnect call clears local state is false. -/
theorem Disconnect_close_failure_counterexample :
    (Client.Disconnect ⟨true, 5, true, true⟩ false).2 = .error .closeError ∧
    (Client.Disconnect ⟨true, 5, true, true⟩ false).1.isConnected = true ∧
    (Client.Disconnect ⟨true, 5, true, true⟩ false).1.isAuthorized = true ∧
    (Client.Disconnect ⟨true, 5, true, true⟩ false).1.conn = true :=
  ⟨rfl, rfl, rfl, rfl⟩

/-- C1 amended: Disconnect on a disconnected (or never-connected) client
is a no-op success; on a connected client a successful close clears both
flags and releases the handle, while a failing close returns CloseError
and leaves the client state entirely unchanged. -/
theorem Disconnect_spec (c : Client) (ok : Bool) :
    (c.isConnected = false → Client.Disconnect c ok = (c, .ok ())) ∧
    (c.isConnected = true → ok = true →
      (Client.Disconnect c ok).2 = .ok () ∧
      (Client.Disconnect c ok).1.isConnected = false ∧
      (Client.Disconnect c ok).1.isAuthorized = false ∧
      (Client.Disconnect c ok).1.conn = false) ∧
    (c.isConnected = true → ok = false →
      (Client.Disconnect c ok).2 = .error .closeError ∧
      (Client.Disconnect c ok).1 = c) := by
  refine ⟨fun h => ?_, fun h1 h2 => ?_, fun h1 h2 => ?_⟩ <;>
    simp_all [Client.Disconnect]

/-- Witness for C1 amended: a connected, authenticated client with a
succeeding close ends up fully cleared. -/
theorem Disconnect_spec_witness :
    (Client.Disconnect ⟨true, 5, true, true⟩ true).2 = .ok () ∧
    (Client.Disconnect ⟨true, 5, true, true⟩ true).1.isConnected = false ∧
    (Client.Disconnect ⟨true, 5, true, true⟩ true).1.isAuthorized = false ∧
    (Client.Disconnect ⟨true, 5, true, true⟩ true).1.conn = false :=
  (Disconnect_spec ⟨true, 5, true, true⟩ true).2.1 rfl rfl

/-- C3: on a connected, not-yet-authenticated client, Authenticate sends
exactly one Auth packet carrying the next request id; when a response
packet is read, id -1 yields AuthenticationFailed regardless of the sent
request id, any other non-matching id yields UnexpectedResponse, and a
matching id sets the authenticated flag and succeeds; on every failure
the authenticated flag stays false. -/
theorem Authenticate_spec (c : Client) (pw : List ℕ) (env : NetEnv)
    (hc : c.isConnected = true) (ha : c.isAuthorized = false) :
    ((Client.Authenticate c pw env).sent =
        [⟨(pw.length : ℤ) + 10, c.requestID, PacketTypeAuth, pw⟩]) ∧
    (∀ resp, env.sendOk = true → readPacket env.input = .ok resp →
      ((resp.id = -1 →
          (Client.Authenticate c pw env).result = .error .authenticationFailed) ∧
       (resp.id ≠ -1 → resp.id ≠ c.requestID →
          (Client.Authenticate c pw env).result = .error .unexpectedResponse) ∧
       (resp.id ≠ -1 → resp.id = c.requestID →
          (Client.Authenticate c pw env).result = .ok () ∧
          (Client.Authenticate c pw env).client.isAuthorized = true))) ∧
    ((Client.Authenticate c pw env).result ≠ .ok () →
      (Client.Authenticate c pw env).client.isAuthorized = false) := by
  unfold Client.Authenticate Client.getNextRequestID
  rw [hc, ha]
  simp only [Bool.not_true, Bool.false_eq_true, ite_false]
  cases hs : env.sendOk
  case false =>
    rw [if_pos (show (!false) = true by decide)]
    refine ⟨rfl, fun resp hsT hrp => ?_, fun _ => rfl⟩
    exact absurd hsT (by decide)
  case true =>
    rw [if_neg (show ¬ (!true) = true by decide)]
    cases hrp : readPacket env.input with
    | error e =>
      refine ⟨rfl, fun resp hsT hrp2 => ?_, fun _ => rfl⟩
      exact Except.noConfusion hrp2
    | ok resp =>
      simp only []
      refine ⟨?_, fun resp2 hsT hrp2 => ?_, ?_⟩
      · split
        · rfl
        · split <;> rfl
      · have hre : resp2 = resp := (Except.ok.inj hrp2).symm
        subst hre
        refine ⟨fun h1 => ?_, fun h1 h2 => ?_, fun h1 h2 => ?_⟩
        · rw [if_pos h1]
        · rw [if_neg h1, if_pos h2]
        · rw [if_neg h1, if_neg (by simp [h2])]
          exact ⟨rfl, rfl⟩
      · split
        · intro _; rfl
        · split
          · intro _; rfl
          · intro h; exact absurd rfl h

/-- Witness for C3: a connected client with request id 2 receiving an auth
response with matching id 2 authenticates successfully. -/
theorem Authenticate_spec_witness :
    (Client.Authenticate ⟨true, 2, true, false⟩ [112]
        ⟨true, encodePacket ⟨0, 2, 2, []⟩⟩).result = .ok () ∧
    (Client.Authenticate ⟨true, 2, true, false⟩ [112]
        ⟨true, encodePacket ⟨0, 2, 2, []⟩⟩).client.isAuthorized = true :=
  ((Authenticate_spec ⟨true, 2, true, false⟩ [112]
      ⟨true, encodePacket ⟨0, 2, 2, []⟩⟩ rfl rfl).2.1
    ⟨0, 2, 2, []⟩ rfl rfl).2.2 (by decide) rfl

/-- C4: Execute fails with NotConnected when the connected flag is false,
with NotAuthenticated when connected but not authenticated, and otherwise
performs one send/receive round trip with the next request id: a
response id differing from the sent id yields ResponseMismatch, a
matching id returns the response body verbatim. -/
theorem Execute_spec (c : Client) (cmd : List ℕ) (env : NetEnv) :
    (c.isConnected = false →
      Client.Execute c cmd env = ⟨c, .error .notConnected, []⟩) ∧
    (c.isConnected = true → c.isAuthorized = false →
      Client.Execute c cmd env = ⟨c, .error .notAuthenticated, []⟩) ∧
    (c.isConnected = true → c.isAuthorized = true →
      ((Client.Execute c cmd env).sent =
          [⟨(cmd.length : ℤ) + 10, c.requestID, PacketTypeCommand, cmd⟩]) ∧
      (∀ resp, env.sendOk = true → readPacket env.input = .ok resp →
        ((resp.id ≠ c.requestID →
            (Client.Execute c cmd env).result = .error .responseMismatch) ∧
         (resp.id = c.requestID →
            (Client.Execute c cmd env).result = .ok resp.body)))) := by
  refine ⟨fun hc => ?_, fun hc ha => ?_, fun hc ha => ?_⟩
  · unfold Client.Execute
    rw [hc]
    rfl
  · unfold Client.Execute
    rw [hc, ha]
    rfl
  · unfold Client.Execute Client.getNextRequestID
    rw [hc, ha]
    simp only [Bool.not_true, Bool.false_eq_true, ite_false]
    cases hs : env.sendOk
    case false =>
      rw [if_pos (show (!false) = true by decide)]
      exact ⟨rfl, fun resp hsT hrp => absurd hsT (by decide)⟩
    case true =>
      rw [if_neg (show ¬ (!true) = true by decide)]
      cases hrp : readPacket env.input with
      | error e =>
        refine ⟨rfl, fun resp hsT hrp2 => ?_⟩
        exact Except.noConfusion hrp2
      | ok resp =>
        simp only []
        refine ⟨?_, fun resp2 hsT hrp2 => ?_⟩
        · split <;> rfl
        · have hre : resp2 = resp := (Except.ok.inj hrp2).symm
          subst hre
          refine ⟨fun h1 => ?_, fun h1 => ?_⟩
          · rw [if_pos h1]
          · rw [if_neg (by simp [h1])]

/-- Witness for C4: a connected authenticated client with request id 2
receiving a response with id 2 gets the response body back verbatim. -/
theorem Execute_spec_witness :
    (Client.Execute ⟨true, 2, true, true⟩ [108]
        ⟨true, encodePacket ⟨0, 2, 0, [104, 10, 105]⟩⟩).result = .ok [104, 10, 105] :=
  (((Execute_spec ⟨true, 2, true, true⟩ [108]
        ⟨true, encodePacket ⟨0, 2, 0, [104, 10, 105]⟩⟩).2.2 rfl rfl).2
    ⟨0, 2, 0, [104, 10, 105]⟩ rfl rfl).2 rfl

lemma Execute_client (c : Client) (cmd : List ℕ) (env : NetEnv) :
    (Client.Execute c cmd env).client =
      if c.isConnected && c.isAuthorized then
        { c with requestID := toInt32 (c.requestID + 1) }
      else c := by
  unfold Client.Execute Client.getNextRequestID
  cases hc : c.isConnected
  · simp
  · cases ha : c.isAuthorized
    · simp
    · simp only [Bool.and_self, ite_true, Bool.not_true, Bool.false_eq_true, ite_false,
        if_true]
      cases hs : env.sendOk
      · rw [if_pos (show (!false) = true by decide)]
      · rw [if_neg (show ¬ (!true) = true by decide)]
        cases hrp : readPacket env.input with
        | error e => rfl
        | ok resp =>
          simp only []
          split <;> rfl

/-- C10: Execute never changes the connected flag, the authenticated flag
or the transport handle; the request-id counter advances by exactly one
(int32 arithmetic) exactly when both precondition checks pass, even if
the exchange then fails, and is untouched otherwise. -/
theorem Execute_frame (c : Client) (cmd : List ℕ) (env : NetEnv) :
    (Client.Execute c cmd env).client.isConnected = c.isConnected ∧
    (Client.Execute c cmd env).client.isAuthorized = c.isAuthorized ∧
    (Client.Execute c cmd env).client.conn = c.conn ∧
    (c.isConnected = true → c.isAuthorized = true →
      (Client.Execute c cmd env).client.requestID = toInt32 (c.requestID + 1)) ∧
    (c.isConnected = true → c.isAuthorized = true →
        -2147483648 ≤ c.requestID → c.requestID + 1 < 2147483648 →
      (Client.Execute c cmd env).client.requestID = c.requestID + 1) ∧
    (¬(c.isConnected = true ∧ c.isAuthorized = true) →
      (Client.Execute c cmd env).client = c) := by
  rw [Execute_client]
  cases hc : c.isConnected <;> cases ha : c.isAuthorized <;> simp_all [toInt32]
  omega

/-- Witness for C10: even when the send fails, a connected authenticated
client's request id advances by exactly one. -/
theorem Execute_frame_witness :
    (Client.Execute ⟨true, 2, true, true⟩ [108] ⟨false, []⟩).client.requestID = 2 + 1 :=
  (Execute_frame ⟨true, 2, true, true⟩ [108] ⟨false, []⟩).2.2.2.2.1 rfl rfl
    (by decide) (by decide)

lemma Connect_client (c : Client) (ok : Bool) :
    (Client.Connect c ok).1 = c ∨
    (Client.Connect c ok).1 = { c with conn := true, isConnected := true } := by
  unfold Client.Connect
  split
  · exact Or.inl rfl
  · split
    · exact Or.inl rfl
    · exact Or.inr rfl

lemma Authenticate_client (c : Client) (pw : List ℕ) (env : NetEnv) :
    (Client.Authenticate c pw env).client = c ∨
    (Client.Authenticate c pw env).client = { c with requestID := toInt32 (c.requestID + 1) } ∨
    ((Client.Authenticate c pw env).client =
        { c with requestID := toInt32 (c.requestID + 1), isAuthorized := true } ∧
      c.isConnected = true) := by
  unfold Client.Authenticate Client.getNextRequestID
  split
  · exact Or.inl rfl
  next hnc =>
    have hcc : c.isConnected = true := by simpa using hnc
    split
    · exact Or.inl rfl
    · simp only []
      split
      · exact Or.inr (Or.inl rfl)
      · split
        · exact Or.inr (Or.inl rfl)
        · split
          · exact Or.inr (Or.inl rfl)
          · split
            · exact Or.inr (Or.inl rfl)
            · exact Or.inr (Or.inr ⟨rfl, hcc⟩)

lemma Disconnect_client (c : Client) (ok : Bool) :
    (Client.Disconnect c ok).1 = c ∨
    (Client.Disconnect c ok).1 =
      { c with conn := false, isConnected := false, isAuthorized := false } := by
  unfold Client.Disconnect
  split
  · exact Or.inl rfl
  · split
    · exact Or.inl rfl
    · exact Or.inr rfl

/-- Clients reachable from the initial disconnected client by any sequence
of Connect, Authenticate, Execute and Disconnect calls with any
environment outcomes. -/
inductive Reachable : Client → Prop
  | init : Reachable NewClient
  | connect (c : Client) (ok : Bool) :
      Reachable c → Reachable (Client.Connect c ok).1
  | authenticate (c : Client) (pw : List ℕ) (env : NetEnv) :
      Reachable c → Reachable (Client.Authenticate c pw env).client
  | execute (c : Client) (cmd : List ℕ) (env : NetEnv) :
      Reachable c → Reachable (Client.Execute c cmd env).client
  | disconnect (c : Client) (ok : Bool) :
      Reachable c → Reachable (Client.Disconnect c ok).1

/-- C7: on every reachable client, the authenticated flag implies the
connected flag, and Execute proceeds past its precondition checks only
when both flags are true (otherwise it fails with NotConnected or
NotAuthenticated). -/
theorem client_invariant (c : Client) (h : Reachable c) :
    (c.isAuthorized = true → c.isConnected = true) ∧
    (∀ cmd env, ¬(c.isConnected = true ∧ c.isAuthorized = true) →
      (Client.Execute c cmd env).result = .error .notConnected ∨
      (Client.Execute c cmd env).result = .error .notAuthenticated) := by
  have hmain : c.isAuthorized = true → c.isConnected = true := by
    induction h with
    | init => simp [NewClient]
    | connect c ok hr ih =>
      rcases Connect_client c ok with he | he <;> rw [he]
      · exact ih
      · intro _; rfl
    | authenticate c pw env hr ih =>
      rcases Authenticate_client c pw env with he | he | ⟨he, hcc⟩ <;> rw [he]
      · exact ih
      · exact ih
      · intro _; exact hcc
    | execute c cmd env hr ih =>
      rw [Execute_client]
      split
      · exact ih
      · exact ih
    | disconnect c ok hr ih =>
      rcases Disconnect_client c ok with he | he <;> rw [he]
      · exact ih
      · intro hx; exact absurd hx (by simp)
  refine ⟨hmain, fun cmd env hne => ?_⟩
  unfold Client.Execute Client.getNextRequestID
  cases hc : c.isConnected
  · exact Or.inl rfl
  · cases ha : c.isAuthorized
    · exact Or.inr rfl
    · exact absurd ⟨hc, ha⟩ hne

/-- Witness for C7: the fresh client fails Execute at the precondition
checks. -/
theorem client_invariant_witness :
    (Client.Execute NewClient [108] ⟨true, []⟩).result = .error .notConnected ∨
    (Client.Execute NewClient [108] ⟨true, []⟩).result = .error .notAuthenticated :=
  (client_invariant NewClient Reachable.init).2 [108] ⟨true, []⟩ (by decide)

/-- A managed RCON session: identifier, owned client, server address,
display name and creation timestamp. The Go struct Session. -/
structure Session where
  id : String
  client : Client
  address : String
  name : String
  created : ℤ
  deriving DecidableEq

/-- The session registry: association of session ids to sessions (the Go
map; the RWMutex serializes access and is not part of the sequential
model). -/
structure SessionManager where
  sessions : List (String × Session)
  deriving DecidableEq

/-- NewSessionManager: starts with no sessions. -/
def NewSessionManager : SessionManager := ⟨[]⟩

/-- SessionManager.CreateSession: error if the id is already bound,
otherwise bind a new session holding a fresh disconnected client, the
name, the address and the current timestamp, and return it. -/
def SessionManager.CreateSession (sm : SessionManager) (id name address : String)
    (now : ℤ) : SessionManager × Except RconError Session :=
  if (sm.sessions.lookup id).isSome then (sm, .error .duplicateSession)
  else
    let session : Session := ⟨id, NewClient, address, name, now⟩
    (⟨(id, session) :: sm.sessions⟩, .ok session)

/-- SessionManager.GetSession: the live session, or SessionNotFound. -/
def SessionManager.GetSession (sm : SessionManager) (id : String) :
    Except RconError Session :=
  match sm.sessions.lookup id with
  | none => .error .sessionNotFound
  | some s => .ok s

/-- SessionManager.RemoveSession: SessionNotFound if absent; if the
session's client is connected it is disconnected first, and a failing
disconnect returns the wrapped error with the entry left in place;
otherwise the entry is deleted. -/
def SessionManager.RemoveSession (sm : SessionManager) (id : String) (closeOk : Bool) :
    SessionManager × Except RconError Unit :=
  match sm.sessions.lookup id with
  | none => (sm, .error .sessionNotFound)
  | some s =>
    if s.client.isConnected then
      match Client.Disconnect s.client closeOk with
      | (_, .error _) => (sm, .error .closeError)
      | (_, .ok _) => (⟨sm.sessions.filter (fun p => p.1 != id)⟩, .ok ())
    else (⟨sm.sessions.filter (fun p => p.1 != id)⟩, .ok ())

lemma lookup_filter_ne (l : List (String × Session)) (id : String) :
    (l.filter (fun p => p.1 != id)).lookup id = none := by
  induction l with
  | nil => rfl
  | cons hd tl ih =>
    by_cases h : hd.1 = id
    · simp [List.filter_cons, h, ih]
    · have hbe : (id == hd.1) = false := beq_eq_false_iff_ne.mpr (fun he => h he.symm)
      simp [List.filter_cons, List.lookup, h, hbe, ih]

lemma GetSession_filter (l : List (String × Session)) (id : String) :
    SessionManager.GetSession ⟨l.filter (fun p => p.1 != id)⟩ id =
      .error .sessionNotFound := by
  unfold SessionManager.GetSession
  rw [lookup_filter_ne]

/-- C2 counterexample: with a registry holding one session whose client is
connected and whose close fails, RemoveSession returns CloseError and the
entry is NOT removed — GetSession still succeeds afterwards, so the claim
that the entry is removed in every present-id case is false. -/
theorem RemoveSession_close_failure_counterexample :
    (SessionManager.RemoveSession
        ⟨[("a", ⟨"a", ⟨true, 5, true, true⟩, "addr", "n", 0⟩)]⟩ "a" false).2 =
      .error .closeError ∧
    (SessionManager.RemoveSession
        ⟨[("a", ⟨"a", ⟨true, 5, true, true⟩, "addr", "n", 0⟩)]⟩ "a" false).1.GetSession "a" =
      .ok ⟨"a", ⟨true, 5, true, true⟩, "addr", "n", 0⟩ :=
  ⟨rfl, rfl⟩

/-- C2 amended: RemoveSession fails with SessionNotFound when the id is
absent; when present with a connected client whose close fails it returns
CloseError and leaves the registry unchanged (the entry remains); when
present with a disconnected client or a succeeding close, the entry is
removed and GetSession subsequently fails with SessionNotFound. -/
theorem RemoveSession_spec (sm : SessionManager) (id : String) (ok : Bool) :
    (sm.sessions.lookup id = none →
      sm.RemoveSession id ok = (sm, .error .sessionNotFound)) ∧
    (∀ s, sm.sessions.lookup id = some s → s.client.isConnected = true → ok = false →
      sm.RemoveSession id ok = (sm, .error .closeError)) ∧
    (∀ s, sm.sessions.lookup id = some s → (s.client.isConnected = false ∨ ok = true) →
      (sm.RemoveSession id ok).2 = .ok () ∧
      (sm.RemoveSession id ok).1.GetSession id = .error .sessionNotFound) := by
  refine ⟨fun h => ?_, fun s hs hconn hok => ?_, fun s hs hor => ?_⟩
  · unfold SessionManager.RemoveSession
    rw [h]
  · subst hok
    unfold SessionManager.RemoveSession
    rw [hs]
    simp only [hconn, ite_true]
    have hd : Client.Disconnect s.client false = (s.client, .error .closeError) := by
      unfold Client.Disconnect
      rw [hconn]
      rfl
    rw [hd]
  · unfold SessionManager.RemoveSession
    rw [hs]
    simp only []
    rcases hor with hconn | hok
    · rw [if_neg (by simp [hconn])]
      exact ⟨rfl, GetSession_filter _ _⟩
    · subst hok
      by_cases hconn : s.client.isConnected = true
      · rw [if_pos hconn]
        have hd : Client.Disconnect s.client true =
            ({ s.client with conn := false, isConnected := false, isAuthorized := false },
              .ok ()) := by
          unfold Client.Disconnect
          rw [hconn]
          rfl
        rw [hd]
        exact ⟨rfl, GetSession_filter _ _⟩
      · rw [if_neg hconn]
        exact ⟨rfl, GetSession_filter _ _⟩

/-- Witness for C2 amended: removing a present session whose close
succeeds deletes the entry and GetSession then fails. -/
theorem RemoveSession_spec_witness :
    (SessionManager.RemoveSession
        ⟨[("a", ⟨"a", ⟨true, 5, true, true⟩, "addr", "n", 0⟩)]⟩ "a" true).2 = .ok () ∧
    (SessionManager.RemoveSession
        ⟨[("a", ⟨"a", ⟨true, 5, true, true⟩, "addr", "n", 0⟩)]⟩ "a" true).1.GetSession "a" =
      .error .sessionNotFound :=
  (RemoveSession_spec ⟨[("a", ⟨"a", ⟨true, 5, true, true⟩, "addr", "n", 0⟩)]⟩ "a" true).2.2
    ⟨"a", ⟨true, 5, true, true⟩, "addr", "n", 0⟩ rfl (Or.inr rfl)

/-- C8: CreateSession with an already-present id fails with
DuplicateSession leaving the registry unchanged and the existing session
still retrievable; with a fresh id it binds and returns a new session
carrying a fresh disconnected client, the given name, address and
timestamp, without connecting or authenticating it. -/
theorem CreateSession_spec (sm : SessionManager) (id name address : String) (now : ℤ) :
    (∀ s, sm.sessions.lookup id = some s →
      sm.CreateSession id name address now = (sm, .error .duplicateSession) ∧
      sm.GetSession id = .ok s) ∧
    (sm.sessions.lookup id = none →
      sm.CreateSession id name address now =
        (⟨(id, ⟨id, NewClient, address, name, now⟩) :: sm.sessions⟩,
          .ok ⟨id, NewClient, address, name, now⟩) ∧
      NewClient.isConnected = false ∧ NewClient.isAuthorized = false ∧
      (sm.CreateSession id name address now).1.GetSession id =
        .ok ⟨id, NewClient, address, name, now⟩) := by
  constructor
  · intro s hs
    constructor
    · unfold SessionManager.CreateSession
      rw [if_pos (by rw [hs]; rfl)]
    · unfold SessionManager.GetSession
      rw [hs]
  · intro h
    have hmk : sm.CreateSession id name address now =
        (⟨(id, ⟨id, NewClient, address, name, now⟩) :: sm.sessions⟩,
          .ok ⟨id, NewClient, address, name, now⟩) := by
      unfold SessionManager.CreateSession
      rw [if_neg (by rw [h]; exact Bool.noConfusion)]
    refine ⟨hmk, rfl, rfl, ?_⟩
    rw [hmk]
    unfold SessionManager.GetSession
    simp [List.lookup]

/-- Witness for C8: creating "x" twice in the empty registry fails the
second call with DuplicateSession and keeps the first session. -/
theorem CreateSession_spec_witness :
    ((NewSessionManager.CreateSession "x" "n" "addr" 0).1.CreateSession "x" "m" "other" 1 =
      ((NewSessionManager.CreateSession "x" "n" "addr" 0).1, .error .duplicateSession)) ∧
    ((NewSessionManager.CreateSession "x" "n" "addr" 0).1.GetSession "x" =
      .ok ⟨"x", NewClient, "addr", "n", 0⟩) :=
  (CreateSession_spec (NewSessionManager.CreateSession "x" "n" "addr" 0).1
    "x" "m" "other" 1).1 ⟨"x", NewClient, "addr", "n", 0⟩ rfl

/-- Write an updated client back through the session pointer held in the
registry map (Go mutates the shared *Client in place). -/
def setClient (l : List (String × Session)) (id : String) (c : Client) :
    List (String × Session) :=
  l.map (fun p => if p.1 = id then (p.1, { p.2 with client := c }) else p)

/-- Environment for one whole connect-tool run: dial outcome, write
outcome, response bytes, and close outcome for the rollback path. -/
structure ConnectEnv where
  dialOk : Bool
  sendOk : Bool
  input : List ℕ
  closeOk : Bool

/-- The mcp Connect tool: CreateSession, then Client.Connect, then
Client.Authenticate; on a dial or authentication failure the session is
removed with RemoveSession (its error discarded) before the failure is
returned. -/
def mcpConnect (sm : SessionManager) (id name address : String) (pw : List ℕ)
    (now : ℤ) (env : ConnectEnv) : SessionManager × Except RconError Unit :=
  match sm.CreateSession id name address now with
  | (sm0, .error e) => (sm0, .error e)
  | (sm1, .ok session) =>
    let (c1, r1) := session.client.Connect env.dialOk
    let sm2 : SessionManager := ⟨setClient sm1.sessions id c1⟩
    match r1 with
    | .error e => ((sm2.RemoveSession id env.closeOk).1, .error e)
    | .ok _ =>
      let ar := c1.Authenticate pw ⟨env.sendOk, env.input⟩
      let sm3 : SessionManager := ⟨setClient sm2.sessions id ar.client⟩
      match ar.result with
      | .error e => ((sm3.RemoveSession id env.closeOk).1, .error e)
      | .ok _ => (sm3, .ok ())

lemma setClient_cons_self (id : String) (s : Session) (rest : List (String × Session))
    (c : Client) :
    setClient ((id, s) :: rest) id c = (id, { s with client := c }) :: setClient rest id c := by
  simp [setClient]

lemma lookup_cons_self (id : String) (s : Session) (rest : List (String × Session)) :
    List.lookup id ((id, s) :: rest) = some s := by
  simp [List.lookup]

lemma Authenticate_isConnected (c : Client) (pw : List ℕ) (env : NetEnv) :
    (Client.Authenticate c pw env).client.isConnected = c.isConnected := by
  rcases Authenticate_client c pw env with he | he | ⟨he, _⟩ <;> rw [he]

lemma RemoveSession_deletes (sm : SessionManager) (id : String) (ok : Bool) (s : Session)
    (hs : sm.sessions.lookup id = some s)
    (h : s.client.isConnected = false ∨ ok = true) :
    (sm.RemoveSession id ok).1.GetSession id = .error .sessionNotFound := by
  unfold SessionManager.RemoveSession
  rw [hs]
  simp only []
  rcases h with hconn | hok
  · rw [if_neg (by simp [hconn])]
    exact GetSession_filter _ _
  · subst hok
    by_cases hconn : s.client.isConnected = true
    · rw [if_pos hconn]
      have hd : Client.Disconnect s.client true =
          ({ s.client with conn := false, isConnected := false, isAuthorized := false },
            .ok ()) := by
        unfold Client.Disconnect
        rw [hconn]
        rfl
      rw [hd]
      exact GetSession_filter _ _
    · rw [if_neg hconn]
      exact GetSession_filter _ _

/-- C9 counterexample: with a successful dial, an authentication failure
(response id -1) and a failing close, the connect tool returns the
authentication error but the rollback removal fails silently and the
session entry REMAINS in the registry — the claim that no entry remains
after any failed connect is false. -/
theorem mcpConnect_rollback_counterexample :
    (mcpConnect NewSessionManager "s" "n" "addr" [112] 0
        ⟨true, true, encodePacket ⟨0, -1, 2, []⟩, false⟩).2 =
      .error .authenticationFailed ∧
    (mcpConnect NewSessionManager "s" "n" "addr" [112] 0
        ⟨true, true, encodePacket ⟨0, -1, 2, []⟩, false⟩).1.GetSession "s" =
      .ok ⟨"s", ⟨true, 2, true, false⟩, "addr", "n", 0⟩ :=
  ⟨rfl, rfl⟩

/-- C9 amended: the connect tool composes CreateSession, Client.Connect
and Client.Authenticate and attempts a rollback removal on either
failure, discarding its error; after a dial failure the session is
always removed, and after an authentication failure it is removed
provided the close triggered by the rollback succeeds. -/
theorem mcpConnect_rollback (sm : SessionManager) (id name address : String)
    (pw : List ℕ) (now : ℤ) (env : ConnectEnv)
    (hfresh : sm.sessions.lookup id = none) :
    (env.dialOk = false →
      (mcpConnect sm id name address pw now env).2 = .error .connectionError ∧
      (mcpConnect sm id name address pw now env).1.GetSession id =
        .error .sessionNotFound) ∧
    (env.closeOk = true →
      (mcpConnect sm id name address pw now env).2 ≠ .ok () →
      (mcpConnect sm id name address pw now env).1.GetSession id =
        .error .sessionNotFound) := by
  have hcs : sm.CreateSession id name address now =
      (⟨(id, ⟨id, NewClient, address, name, now⟩) :: sm.sessions⟩,
        .ok ⟨id, NewClient, address, name, now⟩) := by
    unfold SessionManager.CreateSession
    rw [if_neg (by rw [hfresh]; exact Bool.noConfusion)]
  have hAgen : env.dialOk = false →
      (mcpConnect sm id name address pw now env).2 = .error .connectionError ∧
      (mcpConnect sm id name address pw now env).1.GetSession id =
        .error .sessionNotFound := by
    intro hdf
    have hcon : Client.Connect NewClient env.dialOk =
        (NewClient, .error .connectionError) := by
      rw [hdf]
      rfl
    unfold mcpConnect
    rw [hcs]
    simp only []
    rw [hcon]
    simp only []
    refine ⟨trivial, ?_⟩
    refine RemoveSession_deletes _ id env.closeOk
      ⟨id, NewClient, address, name, now⟩ ?_ (Or.inl rfl)
    rw [setClient_cons_self]
    exact lookup_cons_self _ _ _
  refine ⟨hAgen, fun hcl => ?_⟩
  by_cases hdf : env.dialOk = true
  case neg =>
    have hdf2 : env.dialOk = false := by
      revert hdf
      cases env.dialOk <;> simp
    intro _
    exact (hAgen hdf2).2
  case pos =>
    have hcon : Client.Connect NewClient env.dialOk =
        ({ NewClient with conn := true, isConnected := true }, .ok ()) := by
      rw [hdf]
      rfl
    unfold mcpConnect
    rw [hcs]
    simp only []
    rw [hcon]
    simp only []
    cases har : (Client.Authenticate { NewClient with conn := true, isConnected := true }
        pw ⟨env.sendOk, env.input⟩).result with
    | ok u =>
      intro hne
      exact absurd rfl hne
    | error e =>
      intro _
      refine RemoveSession_deletes _ id env.closeOk
        ⟨id, (Client.Authenticate { NewClient with conn := true, isConnected := true }
          pw ⟨env.sendOk, env.input⟩).client, address, name, now⟩ ?_ (Or.inr hcl)
      rw [setClient_cons_self, setClient_cons_self]
      exact lookup_cons_self _ _ _

/-- Witness for C9 amended: a dial failure rolls the session back and
GetSession fails afterwards. -/
theorem mcpConnect_rollback_witness :
    (mcpConnect NewSessionManager "s" "n" "addr" [112] 0 ⟨false, true, [], false⟩).2 =
      .error .connectionError ∧
    (mcpConnect NewSessionManager "s" "n" "addr" [112] 0
        ⟨false, true, [], false⟩).1.GetSession "s" = .error .sessionNotFound :=
  (mcpConnect_rollback NewSessionManager "s" "n" "addr" [112] 0
    ⟨false, true, [], false⟩ rfl).1 rfl
